import Mathlib

/-!
Verification of the SEOAGENT structured-generation pipeline.

This file gives a shallow embedding, in Lean 4, of the pure core of the
repository's two pipelines (keyword generation and article generation):
prompt building, response extraction, required-field validation,
word-count acceptance, token budgeting, slug derivation and the
error-propagation behaviour of the pipeline functions.  Every definition
is translated from the Python source files (`writer.py`,
`keyword_generator.py`, `seo_tools.py`, `prompts.py`, `file_saver.py`);
the network call itself is replaced by an explicit parameter describing
the outcome of the single API request, and the number of requests
actually issued is returned alongside the result.
-/

set_option maxHeartbeats 1600000
set_option maxRecDepth 8000

/- ## Basic Python string modelling -/

/-- Whitespace characters recognised by Python's `str.split()` / `str.strip()`
(ASCII fragment: space, tab, newline, carriage return, vertical tab, form feed). -/
def isPySpace (c : Char) : Bool :=
  c = ' ' || c = '\t' || c = '\n' || c = '\r' || c = '\x0b' || c = '\x0c'

/-- Python `str.strip()`: drop leading and trailing whitespace. -/
def pyStrip (s : String) : String :=
  ⟨((s.data.dropWhile isPySpace).reverse.dropWhile isPySpace).reverse⟩

/-- Token scanner underlying Python's `len(s.split())`: walks the character
list keeping track of whether we are currently inside a token, and returns
the number of maximal non-whitespace runs together with the final state. -/
def runTok : Bool → List Char → Nat × Bool
  | b, [] => (0, b)
  | b, c :: cs =>
    if isPySpace c then runTok false cs
    else
      let r := runTok true cs
      ((bif b then 0 else 1) + r.1, r.2)

/-- Python `len(s.split())`: number of whitespace-delimited tokens of `s`. -/
def pySplitLen (s : String) : Nat := (runTok false s.data).1

/- ## Slug derivation (`file_saver.py` line 9, `seo_tools.py` line 427) -/

/-- ASCII lower-casing of one character, as Python's `str.lower()` acts on
ASCII letters (the repository's slug inputs are topic strings). -/
def lowerChar (c : Char) : Char :=
  if 65 ≤ c.toNat ∧ c.toNat ≤ 90 then Char.ofNat (c.toNat + 32) else c

/-- Python's single-character `str.replace(pat, rep)` is a character-wise map. -/
def replaceChar (pat rep : Char) (s : String) : String :=
  ⟨s.data.map fun c => if c = pat then rep else c⟩

/-- Python `s.lower()` (character-wise, ASCII). -/
def pyLower (s : String) : String := ⟨s.data.map lowerChar⟩

/-- Slug derivation from `file_saver.py`:
`topic.lower().replace(" ", "-").replace("/", "-")`. -/
def slug (topic : String) : String :=
  replaceChar '/' '-' (replaceChar ' ' '-' (pyLower topic))

/-- The per-character action of `slug`: lower-case, then map space and slash
to a hyphen. -/
def slugChar (c : Char) : Char :=
  let d := lowerChar c
  let e := if d = ' ' then '-' else d
  if e = '/' then '-' else e

/- ## Token budgeting (`seo_tools.py` lines 18-41) -/

/-- Context-length table of `get_model_context_limit`; `dict.get(name, 8192)`
falls back to 8192 for unknown models. -/
def get_model_context_limit (model_name : String) : Int :=
  if model_name = "gpt-4" then 8192
  else if model_name = "gpt-4-32k" then 32768
  else if model_name = "gpt-4-turbo" then 128000
  else if model_name = "gpt-4-turbo-preview" then 128000
  else if model_name = "gpt-3.5-turbo" then 4096
  else if model_name = "gpt-3.5-turbo-16k" then 16384
  else 8192

/-- `calculate_safe_max_tokens` from `seo_tools.py` lines 30-41. -/
def calculate_safe_max_tokens (model_name : String) (base_tokens attempt : Int) : Int :=
  let context_limit := get_model_context_limit model_name
  let reserved_tokens : Int := 2000
  let available_tokens := context_limit - reserved_tokens
  let attempt_tokens := min (base_tokens + attempt * 500) available_tokens
  max 1000 attempt_tokens

/- ## Article payloads and the word-count acceptance check
(`seo_tools.py`, `generate_article_with_tools` lines 160-199) -/

/-- One entry of `article_sections`; `heading`/`content` are `Option` because
the code reads them with `section.get(...)` (absent key gives `None`). -/
structure SectionData where
  heading : Option String
  content : Option String

/-- One entry of `faq`, read with `faq.get('question')` / `faq.get('answer')`. -/
structure FaqData where
  question : Option String
  answer : Option String

/-- Schema-typed view of the parsed tool-call argument object for
`generate_seo_article`.  A field is `none` when the key is absent from the
parsed dict (the code reads every field with `data.get(...)`); the fields
not consulted by validation (`meta_title`, `meta_description`,
`target_keyword`, `word_count`) are omitted because the code never reads
them. -/
structure ArticleData where
  article_title : Option String
  article_sections : Option (List SectionData)
  faq : Option (List FaqData)
  seo_tips : Option (List String)

/-- The required-field list of both article pipelines
(`writer.py` line 71, `seo_tools.py` line 164). -/
def required_fields : List String := ["article_title", "article_sections"]

/-- Key-presence test on the typed article payload, mirroring
`field in data`. -/
def hasField (d : ArticleData) (f : String) : Bool :=
  if f = "article_title" then d.article_title.isSome
  else if f = "article_sections" then d.article_sections.isSome
  else if f = "faq" then d.faq.isSome
  else if f = "seo_tips" then d.seo_tips.isSome
  else false

/-- `[field for field in required_fields if field not in data]` on the typed
payload (`seo_tools.py` line 165). -/
def missing_fields_data (d : ArticleData) : List String :=
  required_fields.filter fun f => ! hasField d f

/-- The contribution of one optional string field to `total_content`:
`if data.get(k): total_content += data[k] + " "` (Python truthiness makes
both an absent key and an empty string contribute nothing). -/
def optPiece : Option String → String
  | some s => if s = "" then "" else s ++ " "
  | none => ""

/-- `total_content` accumulation from `seo_tools.py` lines 171-185: title,
then each section's heading and content, then each FAQ question and answer,
then every SEO tip (tips are appended without a truthiness guard). -/
def total_content (d : ArticleData) : String :=
  let t0 := "" ++ optPiece d.article_title
  let t1 := (d.article_sections.getD []).foldl
    (fun acc s => acc ++ optPiece s.heading ++ optPiece s.content) t0
  let t2 := (d.faq.getD []).foldl
    (fun acc q => acc ++ optPiece q.question ++ optPiece q.answer) t1
  (d.seo_tips.getD []).foldl (fun acc tip => acc ++ (tip ++ " ")) t2

/-- `actual_word_count = len(total_content.split())`
(`seo_tools.py` line 187). -/
def actual_word_count (d : ArticleData) : Nat := pySplitLen (total_content d)

/-- Outcome of the word-count acceptance check, lines 187-199 of
`seo_tools.py`.  `target_min = int(word_count * 0.8)` and
`target_max = int(word_count * 1.2)` truncate the float products; for every
word count within the program's 64-bit/float-exact range this equals floor
division `4*w/5` resp. `6*w/5`, which is how the truncation is embedded
here. -/
inductive WordCheck where
  | tooShort (actual : Nat)
  | acceptedOver (actual : Nat)
  | acceptedOk (actual : Nat)
deriving DecidableEq, Repr

/-- The acceptance decision of `generate_article_with_tools` lines 187-199:
reject (return `None`) when below `target_min`, warn but accept above
`target_max`, accept otherwise. -/
def word_count_check (d : ArticleData) (word_count : Nat) : WordCheck :=
  let actual := actual_word_count d
  let target_min := 4 * word_count / 5
  let target_max := 6 * word_count / 5
  if actual < target_min then .tooShort actual
  else if target_max < actual then .acceptedOver actual
  else .acceptedOk actual

/-- Per-piece token count of an optional string (`none` and `""` both count
zero words, matching the skipped `+=`). -/
def tokOpt (o : Option String) : Nat := pySplitLen (o.getD "")

/-- Scanner state (inside-a-token flag) after processing a string from the
initial state. -/
def tokState (s : String) : Bool := (runTok false s.data).2

/-- A concrete parsed article payload with both required fields present and
a realized word count of 240 words. -/
def shortArticle240 : ArticleData :=
  { article_title := some (String.intercalate " " (List.replicate 240 "w"))
    article_sections := some []
    faq := none
    seo_tips := none }

/-- A concrete parsed article payload with both required fields present and
a realized word count of 7 words. -/
def longArticle7 : ArticleData :=
  { article_title := some "one two three four five six seven"
    article_sections := some []
    faq := none
    seo_tips := none }

/- ## JSON values and `json.loads`
The pipelines parse model output with Python's `json.loads`; the parser
below models it (strict JSON: objects, arrays, strings with escapes,
numbers, `true`/`false`/`null`).  Numbers are stored as their source
lexeme because no code path in the repository ever consumes a parsed
number's value. -/

/-- JSON values as produced by `json.loads`.  Object fields keep source
order (Python dicts preserve insertion order). -/
inductive Json where
  | null
  | bool (b : Bool)
  | jnum (raw : String)
  | str (s : String)
  | arr (elems : List Json)
  | obj (fields : List (String × Json))

/-- Opening brace character. -/
def lbraceC : Char := Char.ofNat 123

/-- Closing brace character. -/
def rbraceC : Char := Char.ofNat 125

/-- JSON inter-token whitespace. -/
def isJsonWs (c : Char) : Bool := c = ' ' || c = '\t' || c = '\n' || c = '\r'

/-- Hexadecimal digit value. -/
def hexVal (c : Char) : Option Nat :=
  if 48 ≤ c.toNat ∧ c.toNat ≤ 57 then some (c.toNat - 48)
  else if 97 ≤ c.toNat ∧ c.toNat ≤ 102 then some (c.toNat - 87)
  else if 65 ≤ c.toNat ∧ c.toNat ≤ 70 then some (c.toNat - 55)
  else none

/-- JSON string literal body (after the opening quote): returns the decoded
string and the input after the closing quote.  Escapes follow the JSON
grammar; a `\u` escape whose code is not a valid scalar value is modelled
by `Char.ofNat`'s replacement character. -/
def parseStringLit (acc : List Char) : List Char → Option (String × List Char)
  | [] => none
  | c :: rest =>
    if c = '"' then some (⟨acc.reverse⟩, rest)
    else if c = '\\' then
      match rest with
      | [] => none
      | e :: rest2 =>
        if e = '"' then parseStringLit ('"' :: acc) rest2
        else if e = '\\' then parseStringLit ('\\' :: acc) rest2
        else if e = '/' then parseStringLit ('/' :: acc) rest2
        else if e = 'b' then parseStringLit ('\x08' :: acc) rest2
        else if e = 'f' then parseStringLit ('\x0c' :: acc) rest2
        else if e = 'n' then parseStringLit ('\n' :: acc) rest2
        else if e = 'r' then parseStringLit ('\r' :: acc) rest2
        else if e = 't' then parseStringLit ('\t' :: acc) rest2
        else if e = 'u' then
          match rest2 with
          | h1 :: h2 :: h3 :: h4 :: rest3 =>
            match hexVal h1, hexVal h2, hexVal h3, hexVal h4 with
            | some a, some b, some c2, some d =>
              parseStringLit (Char.ofNat (((a * 16 + b) * 16 + c2) * 16 + d) :: acc) rest3
            | _, _, _, _ => none
          | _ => none
        else none
    else if c.toNat < 32 then none
    else parseStringLit (c :: acc) rest

/-- Lex a JSON number per Python's `json` number regex
`(-?(?:0|[1-9]\d*))(\.\d+)?([eE][-+]?\d+)?`, returning the raw lexeme.  A
fraction or exponent part is only consumed when complete, as with the
regex. -/
def parseNumber (l : List Char) : Option (String × List Char) :=
  let signPart : List Char × List Char :=
    match l with
    | '-' :: r => (['-'], r)
    | _ => ([], l)
  let sign := signPart.1
  let l1 := signPart.2
  let intPart : Option (List Char × List Char) :=
    match l1 with
    | '0' :: r => some (['0'], r)
    | c :: r =>
      if 49 ≤ c.toNat ∧ c.toNat ≤ 57 then
        some (c :: r.takeWhile Char.isDigit, r.dropWhile Char.isDigit)
      else none
    | [] => none
  match intPart with
  | none => none
  | some (ip, r1) =>
    let fracPart : List Char × List Char :=
      match r1 with
      | '.' :: r2 =>
        let ds := r2.takeWhile Char.isDigit
        if ds.isEmpty then ([], r1) else ('.' :: ds, r2.dropWhile Char.isDigit)
      | _ => ([], r1)
    let fp := fracPart.1
    let r2 := fracPart.2
    let expPart : List Char × List Char :=
      match r2 with
      | e :: r3 =>
        if e = 'e' ∨ e = 'E' then
          match r3 with
          | s :: r4 =>
            if s = '+' ∨ s = '-' then
              let ds := r4.takeWhile Char.isDigit
              if ds.isEmpty then ([], r2) else (e :: s :: ds, r4.dropWhile Char.isDigit)
            else
              let ds := r3.takeWhile Char.isDigit
              if ds.isEmpty then ([], r2) else (e :: ds, r3.dropWhile Char.isDigit)
          | [] => ([], r2)
        else ([], r2)
      | [] => ([], r2)
    some (⟨sign ++ ip ++ fp ++ expPart.1⟩, expPart.2)

mutual

/-- Parse one JSON value (fuel-bounded recursion). -/
def parseValue : Nat → List Char → Option (Json × List Char)
  | 0, _ => none
  | Nat.succ fuel, l =>
    match l.dropWhile isJsonWs with
    | 'n' :: 'u' :: 'l' :: 'l' :: rest => some (.null, rest)
    | 't' :: 'r' :: 'u' :: 'e' :: rest => some (.bool true, rest)
    | 'f' :: 'a' :: 'l' :: 's' :: 'e' :: rest => some (.bool false, rest)
    | '"' :: rest =>
      match parseStringLit [] rest with
      | some (s, r) => some (.str s, r)
      | none => none
    | c :: rest =>
      if c = lbraceC then
        match rest.dropWhile isJsonWs with
        | d :: rest2 =>
          if d = rbraceC then some (.obj [], rest2)
          else
            match parseFields fuel (d :: rest2) with
            | some (fs, r) => some (.obj fs, r)
            | none => none
        | [] => none
      else if c = '[' then
        match rest.dropWhile isJsonWs with
        | d :: rest2 =>
          if d = ']' then some (.arr [], rest2)
          else
            match parseElems fuel (d :: rest2) with
            | some (vs, r) => some (.arr vs, r)
            | none => none
        | [] => none
      else if c = '-' ∨ c.isDigit then
        match parseNumber (c :: rest) with
        | some (raw, r) => some (.jnum raw, r)
        | none => none
      else none
    | [] => none

/-- Parse the elements of a non-empty JSON array, up to and including the
closing bracket. -/
def parseElems : Nat → List Char → Option (List Json × List Char)
  | 0, _ => none
  | Nat.succ fuel, l =>
    match parseValue fuel l with
    | none => none
    | some (v, rest) =>
      match rest.dropWhile isJsonWs with
      | c :: r3 =>
        if c = ',' then
          match parseElems fuel r3 with
          | some (vs, r4) => some (v :: vs, r4)
          | none => none
        else if c = ']' then some ([v], r3)
        else none
      | [] => none

/-- Parse the fields of a non-empty JSON object, up to and including the
closing brace. -/
def parseFields : Nat → List Char → Option (List (String × Json) × List Char)
  | 0, _ => none
  | Nat.succ fuel, l =>
    match l.dropWhile isJsonWs with
    | c :: r1 =>
      if c = '"' then
        match parseStringLit [] r1 with
        | none => none
        | some (k, r2) =>
          match r2.dropWhile isJsonWs with
          | d :: r4 =>
            if d = ':' then
              match parseValue fuel r4 with
              | none => none
              | some (v, r5) =>
                match r5.dropWhile isJsonWs with
                | e :: r7 =>
                  if e = ',' then
                    match parseFields fuel r7 with
                    | some (fs, r8) => some ((k, v) :: fs, r8)
                    | none => none
                  else if e = rbraceC then some ([(k, v)], r7)
                  else none
                | [] => none
            else none
          | [] => none
      else none
    | [] => none

end

/-- Python `json.loads`: parse the whole input as one JSON document (leading
and trailing whitespace allowed, anything else is an error), or fail. -/
def pyJsonLoads (s : String) : Option Json :=
  match parseValue (s.length + 2) s.data with
  | some (v, rest) => if (rest.dropWhile isJsonWs).isEmpty then some v else none
  | none => none

/- ## Free-text JSON extraction (`writer.py` lines 15-29,
`keyword_generator.py` lines 66-80) -/

/-- The regex `re.search(r'\x7b.*\x7d', text, re.DOTALL)` with a greedy `.*`:
it matches from the first opening brace to the last closing brace after it,
or fails when no such pair exists. -/
def extractBraces (s : String) : Option String :=
  let t := s.data.dropWhile fun c => ! (c = lbraceC)
  match t with
  | [] => none
  | _ :: _ =>
    let r := (t.reverse.dropWhile fun c => ! (c = rbraceC)).reverse
    match r with
    | [] => none
    | _ :: _ => some ⟨r⟩

/-- `clean_json_response` from `writer.py` lines 15-29: first try to parse
the greedy brace substring, then (if the regex failed or that parse failed)
parse the entire response, otherwise return `None`. -/
def clean_json_response (text_output : String) : Option Json :=
  match extractBraces text_output with
  | some sub =>
    match pyJsonLoads sub with
    | some j => some j
    | none => pyJsonLoads text_output
  | none => pyJsonLoads text_output

/-- Modelled from the spec: the extraction strategy order stated in §4.3 —
"(1) attempt to parse the entire trimmed response as JSON; (2) on failure,
search for the first `\x7b...\x7d` balanced-looking substring (greedy match
to the last `\x7d`) and parse that; (3) if both fail, signal a parse
failure".  This is the comparison point for the refinement claim; it is not
code of the repository. -/
def spec_order_extract (text : String) : Option Json :=
  match pyJsonLoads (pyStrip text) with
  | some j => some j
  | none =>
    match extractBraces text with
    | some sub => pyJsonLoads sub
    | none => none

/-- Failure kinds of the free-text keyword extraction
(`keyword_generator.py` lines 69-80): a `json.JSONDecodeError` from the
brace-substring parse, or the explicit
`ValueError("Failed to parse JSON response from OpenAI")`; both are caught
by the surrounding handler and re-raised wrapped. -/
inductive KgFailure where
  | wrappedDecodeError
  | wrappedValueError
deriving DecidableEq, Repr

/-- The free-text keyword extraction of `generate_keywords`
(`keyword_generator.py` lines 66-80): strip the response, try `json.loads`
on the whole of it, then on the greedy brace substring; on failure raise
(modelled as `Except.error`). -/
def kg_extract (response_content : String) : Except KgFailure Json :=
  let content := pyStrip response_content
  match pyJsonLoads content with
  | some j => .ok j
  | none =>
    match extractBraces content with
    | some sub =>
      match pyJsonLoads sub with
      | some j => .ok j
      | none => .error .wrappedDecodeError
    | none => .error .wrappedValueError

/- ## Python truthiness and membership on parsed JSON -/

/-- Does `needle` occur at the start of the list? -/
def startsWithChars : List Char → List Char → Bool
  | [], _ => true
  | _ :: _, [] => false
  | a :: as, b :: bs => a = b && startsWithChars as bs

/-- Does `needle` occur as a contiguous substring (Python `x in s` on
strings)? -/
def hasSubChars (needle : List Char) : List Char → Bool
  | [] => needle.isEmpty
  | b :: bs => startsWithChars needle (b :: bs) || hasSubChars needle bs

/-- Is a JSON number lexeme numerically zero (all mantissa digits `0`)? -/
def isZeroJsonNum (raw : String) : Bool :=
  (raw.data.takeWhile fun c => ! (c = 'e' || c = 'E')).all fun c =>
    c = '0' || c = '-' || c = '.'

/-- Python truthiness of a parsed JSON value (`if data:`): `None`, `False`,
zero, the empty string, the empty list and the empty dict are falsy. -/
def pyTruthy : Json → Bool
  | .null => false
  | .bool b => b
  | .jnum raw => ! isZeroJsonNum raw
  | .str s => ! (s = "")
  | .arr xs => ! xs.isEmpty
  | .obj fs => ! fs.isEmpty

/-- Key membership in a parsed JSON object (`field in data` on a dict). -/
def hasKeyF (fields : List (String × Json)) (f : String) : Bool :=
  fields.any fun p => p.1 = f

/-- The missing-field list
`[field for field in required_fields if field not in data]` on a parsed
object. -/
def missing_fields_json (fields : List (String × Json)) : List String :=
  required_fields.filter fun f => ! hasKeyF fields f

/-- The same comprehension evaluated on an arbitrary parsed value: Python
`field in data` is key membership for dicts, element equality for lists,
substring search for strings, and a `TypeError` (modelled as
`Except.error`) for `None`, booleans and numbers. -/
def missing_required (data : Json) : Except Unit (List String) :=
  match data with
  | .obj fields => .ok (missing_fields_json fields)
  | .arr xs => .ok (required_fields.filter fun f =>
      ! xs.any fun v => match v with | .str s => s = f | _ => false)
  | .str s => .ok (required_fields.filter fun f => ! hasSubChars f.data s.data)
  | _ => .error ()

/- ## Pipeline outcomes -/

/-- Result of one pipeline invocation: a returned value, a returned `None`
accompanied by a printed human-readable cause, or an exception propagated
to the caller. -/
inductive PyResult (α : Type) where
  | ok (val : α)
  | retNone (printed : String)
  | raised (msg : String)

/-- Did the invocation propagate an exception? -/
def PyResult.isRaised {α : Type} : PyResult α → Bool
  | .raised _ => true
  | _ => false

/-- Outcome of the single plain chat-completion request, as far as the
`except` clauses of `writer.py` lines 86-97 distinguish them.  The message
argument models `str(e)`. -/
inductive ApiOutcome where
  | authError (msg : String)
  | rateLimitError (msg : String)
  | apiError (msg : String)
  | otherError (msg : String)
  | content (text : String)

/-- Outcome of the single tool-calling request (`seo_tools.py`): an
exception, a response without tool calls, or the first tool call with its
function name and raw JSON argument text. -/
inductive ToolApiOutcome where
  | exn (msg : String)
  | noToolCalls
  | toolCall (name : String) (arguments : String)

/-- Printed by `writer.py` line 82 when JSON extraction fails (the raw
response is also printed; only the cause line is modelled). -/
def msg_parse_failed : String := "⚠️ Failed to parse JSON response. Raw output:"

/-- Python `repr` of a list of strings, as interpolated by
`print(f"... \x7bmissing_fields\x7d")`. -/
def pyListRepr (xs : List String) : String :=
  "[" ++ String.intercalate ", " (xs.map fun s => "\x27" ++ s ++ "\x27") ++ "]"

/-- The missing-required-fields warning of `writer.py` line 75 /
`seo_tools.py` line 167. -/
def missing_msg (missing : List String) : String :=
  "⚠️ Warning: Missing required fields: " ++ pyListRepr missing

/-- Cause printed by `writer.py`'s generic handler (line 96); the embedded
`str(e)` of the `TypeError` is modelled by a fixed token. -/
def msg_type_error : String := "❌ Unexpected error: TypeError"

/-- Model of `str(e)` for a `json.JSONDecodeError` (its exact text depends
on the failure position and is not needed by any claim). -/
def jsonDecodeErrorText : String := "Expecting value: line 1 column 1 (char 0)"

/- ## The article free-text pipeline (`writer.py`, `generate_article`) -/

/-- Lines 69-84 of `writer.py`, applied to the already-extracted JSON value:
a falsy parse result is reported as a parse failure; otherwise the two
required fields are checked and either the missing list is reported (and
`None` returned) or the data is returned. -/
def writer_process_data (data : Json) : PyResult Json :=
  if pyTruthy data then
    match missing_required data with
    | .error _ => .retNone msg_type_error
    | .ok missing =>
      if missing.isEmpty then .ok data
      else .retNone (missing_msg missing)
  else .retNone msg_parse_failed

/-- Lines 64-84 of `writer.py`: extract JSON from the response text with
`clean_json_response`, then validate. -/
def writer_handle_response (text_output : String) : PyResult Json :=
  match clean_json_response text_output with
  | some data => writer_process_data data
  | none => .retNone msg_parse_failed

/-- `generate_article` from `writer.py` lines 31-97.  The credential is the
`OPENAI_API_KEY` environment value (`none` when unset); the request
parameters only shape the prompt text (see `build_prompt`) and do not
influence control flow, so they are not repeated here.  The second
component counts the network requests issued. -/
def writer_generate_article (api_key : Option String) (api : ApiOutcome) :
    PyResult Json × Nat :=
  if api_key.getD "" = "" then
    (.raised "OpenAI API key not found. Please set OPENAI_API_KEY in your .env file.", 0)
  else
    match api with
    | .authError _ => (.retNone "❌ Authentication error: Please check your OpenAI API key.", 1)
    | .rateLimitError _ => (.retNone "❌ Rate limit exceeded: Please wait a moment and try again.", 1)
    | .apiError m => (.retNone ("❌ OpenAI API error: " ++ m), 1)
    | .otherError m => (.retNone ("❌ Unexpected error: " ++ m), 1)
    | .content text => (writer_handle_response text, 1)

/- ## The keyword pipelines (`keyword_generator.py` lines 14-83,
`seo_tools.py` lines 216-331) -/

/-- `generate_keywords` from `keyword_generator.py`: the credential check
raises before any request; every error inside the `try` block — including
transport errors and both parse-failure kinds — is re-raised wrapped in
`Exception("Error generating keywords: " + str(e))`. -/
def kg_generate_keywords (api_key : Option String) (api : ApiOutcome) :
    PyResult Json × Nat :=
  if api_key.getD "" = "" then
    (.raised "OPENAI_API_KEY not found in environment variables", 0)
  else
    match api with
    | .authError m => (.raised ("Error generating keywords: " ++ m), 1)
    | .rateLimitError m => (.raised ("Error generating keywords: " ++ m), 1)
    | .apiError m => (.raised ("Error generating keywords: " ++ m), 1)
    | .otherError m => (.raised ("Error generating keywords: " ++ m), 1)
    | .content text =>
      match kg_extract text with
      | .ok j => (.ok j, 1)
      | .error .wrappedDecodeError =>
        (.raised ("Error generating keywords: " ++ jsonDecodeErrorText), 1)
      | .error .wrappedValueError =>
        (.raised "Error generating keywords: Failed to parse JSON response from OpenAI", 1)

/-- `generate_keywords_with_tools` from `seo_tools.py` lines 216-331: the
credential check raises before any request; a missing or mismatched tool
call prints a warning and returns `None`; an exception (including a JSON
decode failure of the argument payload) is re-raised wrapped. -/
def tools_generate_keywords (api_key : Option String) (api : ToolApiOutcome) :
    PyResult Json × Nat :=
  if api_key.getD "" = "" then
    (.raised "OPENAI_API_KEY not found in environment variables", 0)
  else
    match api with
    | .exn m => (.raised ("Error generating keywords: " ++ m), 1)
    | .noToolCalls => (.retNone "⚠️ No tool calls in response", 1)
    | .toolCall name args =>
      if name = "generate_seo_keywords" then
        match pyJsonLoads args with
        | some j => (.ok j, 1)
        | none => (.raised ("Error generating keywords: " ++ jsonDecodeErrorText), 1)
      else (.retNone "⚠️ No function call response received", 1)

/- ## The article tool-calling pipeline
(`seo_tools.py`, `generate_article_with_tools`) -/

/-- Reading of one optional field that the code guards with
`if data.get(k):` and then concatenates: a present string is kept, a falsy
value of any type is skipped exactly like an absent key, and a truthy
non-string passes the guard but makes the `+ " "` concatenation raise a
`TypeError` (modelled as `Except.error`). -/
def strFieldView : Option Json → Except Unit (Option String)
  | none => .ok none
  | some (Json.str s) => .ok (some s)
  | some v => if pyTruthy v then .error () else .ok none

/-- `dict.get` on parsed object fields.  `json.loads` keeps the last value
of a duplicated key, hence the reversed search. -/
def pyGet (fields : List (String × Json)) (key : String) : Option Json :=
  (fields.reverse.find? fun p => p.1 = key).map Prod.snd

/-- Map a fallible element view across a list, failing if any element
fails. -/
def exceptAll {α β : Type} (f : α → Except Unit β) : List α → Except Unit (List β)
  | [] => .ok []
  | x :: xs =>
    match f x, exceptAll f xs with
    | .ok y, .ok ys => .ok (y :: ys)
    | _, _ => .error ()

/-- One `article_sections` element: must be a dict (anything else has no
`.get` and raises). -/
def sectionView : Json → Except Unit SectionData
  | Json.obj fs =>
    match strFieldView (pyGet fs "heading"), strFieldView (pyGet fs "content") with
    | .ok h, .ok c => .ok ⟨h, c⟩
    | _, _ => .error ()
  | _ => .error ()

/-- One `faq` element, like `sectionView`. -/
def faqView : Json → Except Unit FaqData
  | Json.obj fs =>
    match strFieldView (pyGet fs "question"), strFieldView (pyGet fs "answer") with
    | .ok q, .ok a => .ok ⟨q, a⟩
    | _, _ => .error ()
  | _ => .error ()

/-- `for section in data.get('article_sections', [])` over an arbitrary
value: an absent key iterates nothing; a list iterates its elements; an
empty string or empty dict also iterates nothing; a non-empty string or
dict yields strings whose `.get` raises; other values are not iterable. -/
def dictListView {α : Type} (view : Json → Except Unit α) : Option Json → Except Unit (List α)
  | none => .ok []
  | some (Json.arr xs) => exceptAll view xs
  | some (Json.str s) => if s = "" then .ok [] else .error ()
  | some (Json.obj fs) => if fs.isEmpty then .ok [] else .error ()
  | some _ => .error ()

/-- One `seo_tips` element: `tip + " "` needs a string. -/
def tipView : Json → Except Unit String
  | Json.str s => .ok s
  | _ => .error ()

/-- `for tip in data.get('seo_tips', [])`: like `dictListView`, except that
iterating a string yields its characters as one-character strings (which
concatenate fine) and iterating a dict yields its keys. -/
def tipsView : Option Json → Except Unit (List String)
  | none => .ok []
  | some (Json.arr xs) => exceptAll tipView xs
  | some (Json.str s) => .ok (s.data.map fun c => ⟨[c]⟩)
  | some (Json.obj fs) => .ok ((fs.map Prod.fst).eraseDups)
  | some _ => .error ()

/-- Assemble the typed view of the parsed tool-call argument object used by
the word-count computation of lines 170-185; `Except.error` stands for the
`TypeError`/`AttributeError` raised during that computation (caught by the
handler at line 207). -/
def jsonToArticle (fields : List (String × Json)) : Except Unit ArticleData :=
  match strFieldView (pyGet fields "article_title"),
        dictListView sectionView (pyGet fields "article_sections"),
        dictListView faqView (pyGet fields "faq"),
        tipsView (pyGet fields "seo_tips") with
  | .ok t, .ok ss, .ok qs, .ok ts => .ok ⟨t, ss, qs, ts⟩
  | _, _, _, _ => .error ()

/-- The too-short rejection message of `seo_tools.py` line 192. -/
def msg_too_short (actual word_count : Nat) : String :=
  "❌ Error: Generated article is too short (" ++ toString actual
    ++ " words vs target " ++ toString word_count ++ " words)"

/-- The generic handler of `seo_tools.py` lines 207-209. -/
def msg_generic_error (m : String) : String := "❌ Error: " ++ m

/-- Lines 164-199 of `generate_article_with_tools` on a parsed argument
object: required-field check, then word-count acceptance; an over-length
article only triggers a printed warning and is still returned. -/
def tools_validate (fields : List (String × Json)) (word_count : Nat) : PyResult Json :=
  let missing := missing_fields_json fields
  if missing.isEmpty then
    match jsonToArticle fields with
    | .error _ => .retNone (msg_generic_error "TypeError")
    | .ok d =>
      match word_count_check d word_count with
      | .tooShort actual => .retNone (msg_too_short actual word_count)
      | .acceptedOver _ => .ok (Json.obj fields)
      | .acceptedOk _ => .ok (Json.obj fields)
  else .retNone (missing_msg missing)

/-- `generate_article_with_tools` from `seo_tools.py` lines 43-211: the
credential check raises before any request; every failure inside the `try`
block is converted to a printed cause plus a returned `None`. -/
def tools_generate_article (api_key : Option String) (api : ToolApiOutcome)
    (word_count : Nat) : PyResult Json × Nat :=
  if api_key.getD "" = "" then
    (.raised "OpenAI API key not found. Please set OPENAI_API_KEY in your .env file.", 0)
  else
    match api with
    | .exn m => (.retNone (msg_generic_error m), 1)
    | .noToolCalls => (.retNone "⚠️ No tool calls in response", 1)
    | .toolCall name args =>
      if name = "generate_seo_article" then
        match pyJsonLoads args with
        | none => (.retNone (msg_generic_error jsonDecodeErrorText), 1)
        | some (Json.obj fields) => (tools_validate fields word_count, 1)
        | some v =>
          match missing_required v with
          | .error _ => (.retNone (msg_generic_error "TypeError"), 1)
          | .ok missing =>
            if missing.isEmpty then (.retNone (msg_generic_error "AttributeError"), 1)
            else (.retNone (missing_msg missing), 1)
      else (.retNone "⚠️ No function call response received", 1)

/- ## Keyword flattening (`seo_tools.py`, `get_flat_keywords_list`) -/

/-- The part of the parsed keyword payload consulted by
`get_flat_keywords_list`: the `keywords` mapping from keyword type to its
list, in source order (`none` when the key is absent, defaulted to `{}`). -/
structure KeywordsPayload where
  keywords : Option (List (String × List String))

/-- A concrete keyword payload with two keyword types. -/
def exampleKeywordsPayload : KeywordsPayload :=
  ⟨some [("primary_keywords", ["a"]), ("related_keywords", ["b", "c"])]⟩

/-- `get_flat_keywords_list` from `seo_tools.py` lines 414-421,
parameterised by the outcome of the inner `generate_keywords` call (`none`
when that call returned `None`). -/
def get_flat_keywords_list (topic : String) (gen : Option KeywordsPayload) :
    String × List String :=
  match gen with
  | none => (topic, [])
  | some d =>
    (topic, (d.keywords.getD []).foldl (fun flat p => flat ++ p.2) [])

/- ## Prompt builders (`prompts.py` lines 1-46,
`seo_tools.py` lines 348-396) -/

/-- The optional keyword-list block of `build_prompt`: empty for `None` or
an empty list (Python truthiness), otherwise the hard "use ALL" line with
each keyword quoted and comma-joined. -/
def keywords_section_of (keywords_list : Option (List String)) : String :=
  match keywords_list with
  | some (kw :: kws) =>
    "\n- Use ALL of the following keywords naturally throughout the article: "
      ++ String.intercalate ", " ((kw :: kws).map fun k => "\"" ++ k ++ "\"")
      ++ "\n"
  | _ => ""

/-- `build_prompt` from `prompts.py`, transcribed from the f-string
(literal braces written with their escapes). -/
def build_prompt (keyword tone : String) (word_count : Nat) (article_type : String)
    (keywords_list : Option (List String)) : String :=
  "\nYou are an expert SEO content writer. Create a comprehensive, SEO-optimized "
  ++ article_type ++ " article targeting the keyword: \"" ++ keyword ++ "\".\n\n"
  ++ "Requirements:\n- Target word count: " ++ toString word_count ++ " words\n"
  ++ "- Tone: " ++ tone ++ "\n"
  ++ "- Include the target keyword naturally throughout the content\n"
  ++ keywords_section_of keywords_list
  ++ "- Create engaging, informative content that provides real value\n"
  ++ "- Include relevant subheadings for better structure\n"
  ++ "- Add a FAQ section with common questions about the topic\n\n"
  ++ "Return the result in valid JSON format like this:\n\n"
  ++ "\x7b\n  \"meta_title\": \"SEO-optimized title (50-60 characters)\",\n"
  ++ "  \"meta_description\": \"Compelling description (150-160 characters)\",\n"
  ++ "  \"article_title\": \"Engaging main title\",\n"
  ++ "  \"target_keyword\": \"" ++ keyword ++ "\",\n"
  ++ "  \"word_count\": " ++ toString word_count ++ ",\n"
  ++ "  \"article_sections\": [\n    \x7b\n      \"heading\": \"H2 heading\",\n"
  ++ "      \"content\": \"Well-written content with natural keyword usage...\"\n"
  ++ "    \x7d\n  ],\n  \"faq\": [\n    \x7b\n"
  ++ "      \"question\": \"Common question about the topic\",\n"
  ++ "      \"answer\": \"Clear, helpful answer\"\n    \x7d\n  ],\n"
  ++ "  \"seo_tips\": [\n    \"SEO optimization tip 1\",\n"
  ++ "    \"SEO optimization tip 2\"\n  ]\n\x7d\n\n"
  ++ "Make sure the content is original, engaging, and provides genuine value to readers while being optimized for search engines.\n"

/-- The keyword-type description table of `build_keyword_prompt`. -/
def keyword_type_description (t : String) : Option String :=
  if t = "primary_keywords" then some "main target keywords (1-3 words)"
  else if t = "long_tail_keywords" then some "longer, more specific phrases (4+ words)"
  else if t = "question_keywords" then some "keywords that start with what, how, why, when, where, etc."
  else if t = "local_keywords" then some "keywords with location modifiers"
  else if t = "related_keywords" then some "semantically related terms and synonyms"
  else none

/-- The per-type bullet lines of `build_keyword_prompt` (unknown types are
skipped). -/
def types_section_of (keyword_types : List String) : String :=
  keyword_types.foldl
    (fun acc t =>
      match keyword_type_description t with
      | some d => acc ++ "- " ++ t ++ ": " ++ d ++ "\n"
      | none => acc) ""

/-- `build_keyword_prompt` from `seo_tools.py` lines 348-396 (the identical
f-string also appears in `keyword_generator.py` lines 104-140). -/
def build_keyword_prompt (topic : String) (keyword_count : Nat)
    (keyword_types : List String) : String :=
  "\nGenerate SEO keywords for the topic: \"" ++ topic ++ "\"\n\n"
  ++ "Requirements:\n- Generate " ++ toString keyword_count ++ " keywords total\n"
  ++ "- Focus on high-search-volume, low-competition keywords\n"
  ++ "- Include a mix of different keyword types\n"
  ++ "- Keywords should be relevant and valuable for SEO\n\n"
  ++ "Keyword types to include:\n"
  ++ types_section_of keyword_types
  ++ "\n\nReturn the result in valid JSON format like this:\n\n"
  ++ "\x7b\n  \"topic\": \"" ++ topic ++ "\",\n"
  ++ "  \"total_keywords\": " ++ toString keyword_count ++ ",\n"
  ++ "  \"keywords\": \x7b\n"
  ++ "    \"primary_keywords\": [\"keyword1\", \"keyword2\", \"keyword3\"],\n"
  ++ "    \"long_tail_keywords\": [\"long tail keyword 1\", \"long tail keyword 2\"],\n"
  ++ "    \"question_keywords\": [\"what is...\", \"how to...\", \"why does...\"],\n"
  ++ "    \"local_keywords\": [\"topic near me\", \"topic in [city]\"],\n"
  ++ "    \"related_keywords\": [\"synonym1\", \"related term1\", \"alternative1\"]\n"
  ++ "  \x7d,\n  \"seo_insights\": \x7b\n"
  ++ "    \"search_volume_estimate\": \"high/medium/low\",\n"
  ++ "    \"competition_level\": \"high/medium/low\",\n"
  ++ "    \"recommended_focus\": \"primary keywords to target first\"\n"
  ++ "  \x7d\n\x7d\n\n"
  ++ "Make sure all keywords are:\n- Relevant to the topic\n"
  ++ "- Searchable and commonly used\n- Optimized for SEO\n"
  ++ "- Include the main topic naturally\n"

/- ## Theorems -/

/-- Helper: every entry of the model-limit table (including the default) is
at least 4096 tokens. -/
theorem context_limit_ge (m : String) : 4096 ≤ get_model_context_limit m := by
  unfold get_model_context_limit
  repeat' split
  all_goals norm_num

/-- Helper: `Char.ofNat` of a valid codepoint has that codepoint as `toNat`. -/
theorem toNat_ofNat_valid (n : Nat) (h : n.isValidChar) : (Char.ofNat n).toNat = n := by
  rw [Char.ofNat, dif_pos h]
  rfl

/-- Helper: `lowerChar` output is never an ASCII upper-case letter. -/
theorem lowerChar_not_upper (c : Char) :
    ¬ (65 ≤ (lowerChar c).toNat ∧ (lowerChar c).toNat ≤ 90) := by
  unfold lowerChar
  split
  · next h =>
    have hval : (c.toNat + 32).isValidChar := Or.inl (by omega)
    rw [toNat_ofNat_valid _ hval]
    omega
  · next h => omega

/-- Helper: `lowerChar` fixes characters outside the upper-case range. -/
theorem lowerChar_fix (c : Char) (h : ¬ (65 ≤ c.toNat ∧ c.toNat ≤ 90)) :
    lowerChar c = c := by
  unfold lowerChar
  exact if_neg h

/-- Helper: `slugChar c` is either a hyphen or a non-space non-slash
character fixed by `lowerChar`. -/
theorem slugChar_cases (c : Char) :
    slugChar c = '-'
    ∨ (slugChar c = lowerChar c ∧ lowerChar c ≠ ' ' ∧ lowerChar c ≠ '/') := by
  unfold slugChar
  by_cases h1 : lowerChar c = ' '
  · left
    simp only [h1, if_pos rfl]
    rfl
  · by_cases h2 : lowerChar c = '/'
    · left
      simp [h1, h2]
    · right
      simp [h1, h2]

/-- Helper: `slugChar` fixes any character that is not upper-case, not a
space and not a slash. -/
theorem slugChar_fix (e : Char) (hup : ¬ (65 ≤ e.toNat ∧ e.toNat ≤ 90))
    (hsp : e ≠ ' ') (hsl : e ≠ '/') : slugChar e = e := by
  unfold slugChar
  rw [lowerChar_fix e hup]
  simp [hsp, hsl]

/-- Helper: `slugChar` is idempotent. -/
theorem slugChar_idem (c : Char) : slugChar (slugChar c) = slugChar c := by
  rcases slugChar_cases c with h | ⟨h, hsp, hsl⟩
  · rw [h]
    decide
  · rw [h]
    refine slugChar_fix _ ?_ hsp hsl
    intro hcontra
    exact lowerChar_not_upper c hcontra

/-- Helper: the character data of `slug t` is the pointwise `slugChar` map. -/
theorem slug_data (t : String) : (slug t).data = t.data.map slugChar := by
  show ((t.data.map lowerChar).map _).map _ = _
  rw [List.map_map, List.map_map]
  rfl

/-- Helper: mapping `slugChar` twice over a character list equals mapping it
once. -/
theorem map_slugChar_idem (l : List Char) :
    (l.map slugChar).map slugChar = l.map slugChar := by
  induction l with
  | nil => rfl
  | cons c l ih =>
    simp only [List.map_cons]
    rw [slugChar_idem c, ih]

/-- C7: slug derivation (lower-case, then replace every space and every `/`
with `-`) is idempotent and deterministic, and maps the two specified
examples to their expected values. -/
theorem slug_idempotent_deterministic :
    (∀ t : String, slug (slug t) = slug t)
    ∧ (∀ t₁ t₂ : String, t₁ = t₂ → slug t₁ = slug t₂)
    ∧ slug "Best Coffee Makers" = "best-coffee-makers"
    ∧ slug "A/B Testing" = "a-b-testing" := by
  refine ⟨?_, ?_, ?_, ?_⟩
  · intro t
    apply String.ext
    rw [slug_data, slug_data]
    exact map_slugChar_idem t.data
  · intro t₁ t₂ h
    rw [h]
  · decide
  · decide

/-- Witness for C7's determinism hypothesis at a concrete input. -/
theorem slug_deterministic_witness :
    slug "Best Coffee Makers" = slug "Best Coffee Makers" :=
  slug_idempotent_deterministic.2.1 "Best Coffee Makers" "Best Coffee Makers" rfl

/-- C8: for every model name, base token count `b ≥ 0` and attempt `a ≥ 0`,
`calculate_safe_max_tokens` lies in the inclusive range
`[1000, context_limit - 2000]`. -/
theorem calculate_safe_max_tokens_in_range (m : String) (b a : Int)
    (_hb : 0 ≤ b) (_ha : 0 ≤ a) :
    1000 ≤ calculate_safe_max_tokens m b a
    ∧ calculate_safe_max_tokens m b a ≤ get_model_context_limit m - 2000 := by
  have hL := context_limit_ge m
  unfold calculate_safe_max_tokens
  constructor
  · exact le_max_left _ _
  · have h1 : min (b + a * 500) (get_model_context_limit m - 2000)
        ≤ get_model_context_limit m - 2000 := min_le_right _ _
    have h2 : (1000 : Int) ≤ get_model_context_limit m - 2000 := by omega
    simp only [max_le_iff]
    exact ⟨h2, h1⟩

/-- Witness for C8 at model `gpt-4`, base 4000, attempt 0. -/
theorem calculate_safe_max_tokens_witness :
    1000 ≤ calculate_safe_max_tokens "gpt-4" 4000 0
    ∧ calculate_safe_max_tokens "gpt-4" 4000 0 ≤ get_model_context_limit "gpt-4" - 2000 :=
  calculate_safe_max_tokens_in_range "gpt-4" 4000 0 (by norm_num) (by norm_num)

/- ## Word-count lemmas (C1, C6) -/

/-- Helper: string append concatenates the character data. -/
theorem str_data_append (a b : String) : (a ++ b).data = a.data ++ b.data := rfl

/-- Helper: the token scanner splits over list concatenation, threading its
state. -/
theorem runTok_append (l r : List Char) (b : Bool) :
    runTok b (l ++ r)
      = ((runTok b l).1 + (runTok (runTok b l).2 r).1, (runTok (runTok b l).2 r).2) := by
  induction l generalizing b with
  | nil => simp [runTok]
  | cons c l ih =>
    by_cases hc : isPySpace c
    · simp [runTok, hc, ih]
    · simp [runTok, hc, ih, Nat.add_assoc]

/-- Helper: a trailing space chunk adds the chunk's tokens and resets the
scanner state. -/
theorem runTok_space_end (x : List Char) (b : Bool) :
    runTok b (x ++ [' ']) = ((runTok b x).1, false) := by
  rw [runTok_append]
  simp [runTok, isPySpace]

/-- Helper: appending `piece + " "` to a string whose scan ends outside a
token adds exactly the piece's token count, and the scan again ends outside
a token. -/
theorem pySplitLen_chunk (acc piece : String) (h : tokState acc = false) :
    pySplitLen (acc ++ (piece ++ " ")) = pySplitLen acc + pySplitLen piece
    ∧ tokState (acc ++ (piece ++ " ")) = false := by
  have hdata : (acc ++ (piece ++ " ")).data = acc.data ++ (piece.data ++ [' ']) := rfl
  unfold pySplitLen tokState at *
  rw [hdata, runTok_append, h, runTok_space_end]
  exact ⟨rfl, rfl⟩

/-- Helper: the same for an optional guarded piece (`optPiece`). -/
theorem pySplitLen_optPiece (acc : String) (o : Option String) (h : tokState acc = false) :
    pySplitLen (acc ++ optPiece o) = pySplitLen acc + tokOpt o
    ∧ tokState (acc ++ optPiece o) = false := by
  match o with
  | none =>
    simp only [optPiece, tokOpt, Option.getD]
    constructor
    · show pySplitLen ⟨acc.data ++ []⟩ = _
      rw [List.append_nil]
      simp [pySplitLen]
      rfl
    · show tokState ⟨acc.data ++ []⟩ = false
      rw [List.append_nil]
      exact h
  | some s =>
    by_cases hs : s = ""
    · subst hs
      simp only [optPiece, tokOpt, Option.getD, if_pos rfl]
      constructor
      · show pySplitLen ⟨acc.data ++ []⟩ = pySplitLen acc + pySplitLen ""
        rw [List.append_nil]
        rfl
      · show tokState ⟨acc.data ++ []⟩ = false
        rw [List.append_nil]
        exact h
    · simp only [optPiece, tokOpt, Option.getD, if_neg hs]
      exact pySplitLen_chunk acc s h

/-- Helper: the section fold of `total_content` adds, per section, the token
counts of its heading and content. -/
theorem fold_sections_count (ss : List SectionData) (acc : String) (h : tokState acc = false) :
    pySplitLen (ss.foldl (fun a s => a ++ optPiece s.heading ++ optPiece s.content) acc)
      = pySplitLen acc + (ss.map fun s => tokOpt s.heading + tokOpt s.content).sum
    ∧ tokState (ss.foldl (fun a s => a ++ optPiece s.heading ++ optPiece s.content) acc) = false := by
  induction ss generalizing acc with
  | nil => exact ⟨by simp, h⟩
  | cons s ss ih =>
    have h1 := pySplitLen_optPiece acc s.heading h
    have h2 := pySplitLen_optPiece (acc ++ optPiece s.heading) s.content h1.2
    have h3 := ih (acc ++ optPiece s.heading ++ optPiece s.content) h2.2
    simp only [List.foldl_cons, List.map_cons, List.sum_cons]
    rw [h3.1, h2.1, h1.1]
    exact ⟨by ring, h3.2⟩

/-- Helper: the FAQ fold of `total_content` adds, per entry, the token
counts of its question and answer. -/
theorem fold_faq_count (qs : List FaqData) (acc : String) (h : tokState acc = false) :
    pySplitLen (qs.foldl (fun a q => a ++ optPiece q.question ++ optPiece q.answer) acc)
      = pySplitLen acc + (qs.map fun q => tokOpt q.question + tokOpt q.answer).sum
    ∧ tokState (qs.foldl (fun a q => a ++ optPiece q.question ++ optPiece q.answer) acc) = false := by
  induction qs generalizing acc with
  | nil => exact ⟨by simp, h⟩
  | cons q qs ih =>
    have h1 := pySplitLen_optPiece acc q.question h
    have h2 := pySplitLen_optPiece (acc ++ optPiece q.question) q.answer h1.2
    have h3 := ih (acc ++ optPiece q.question ++ optPiece q.answer) h2.2
    simp only [List.foldl_cons, List.map_cons, List.sum_cons]
    rw [h3.1, h2.1, h1.1]
    exact ⟨by ring, h3.2⟩

/-- Helper: the SEO-tips fold of `total_content` adds each tip's token
count. -/
theorem fold_tips_count (ts : List String) (acc : String) (h : tokState acc = false) :
    pySplitLen (ts.foldl (fun a tip => a ++ (tip ++ " ")) acc)
      = pySplitLen acc + (ts.map pySplitLen).sum
    ∧ tokState (ts.foldl (fun a tip => a ++ (tip ++ " ")) acc) = false := by
  induction ts generalizing acc with
  | nil => exact ⟨by simp, h⟩
  | cons tip ts ih =>
    have h1 := pySplitLen_chunk acc tip h
    have h3 := ih (acc ++ (tip ++ " ")) h1.2
    simp only [List.foldl_cons, List.map_cons, List.sum_cons]
    rw [h3.1, h1.1]
    exact ⟨by ring, h3.2⟩

/-- C6: the realized word count used by the acceptance check equals the sum
of the whitespace-delimited token counts of the article title, every
section's heading and content, every FAQ question and answer, and every SEO
tip. -/
theorem realized_word_count_is_sum_of_pieces (d : ArticleData) :
    actual_word_count d =
      tokOpt d.article_title
      + ((d.article_sections.getD []).map fun s => tokOpt s.heading + tokOpt s.content).sum
      + ((d.faq.getD []).map fun q => tokOpt q.question + tokOpt q.answer).sum
      + ((d.seo_tips.getD []).map pySplitLen).sum := by
  have h0 : tokState ("" : String) = false := rfl
  have h1 := pySplitLen_optPiece "" d.article_title h0
  have h2 := fold_sections_count (d.article_sections.getD []) ("" ++ optPiece d.article_title) h1.2
  have h3 := fold_faq_count (d.faq.getD []) _ h2.2
  have h4 := fold_tips_count (d.seo_tips.getD []) _ h3.2
  show pySplitLen _ = _
  unfold total_content
  rw [h4.1, h3.1, h2.1, h1.1]
  have hempty : pySplitLen "" = 0 := rfl
  rw [hempty]
  ring

/-- C1 (counterexample): with requested word count 301 and realized word
count 240 we have `240 < 0.8 * 301 = 240.8`, so the claim demands a
too-short rejection; the code compares against
`int(301 * 0.8) = 240` and accepts the article (without even an over-length
flag).  Both required fields are present. -/
theorem word_count_boundary_counterexample :
    missing_fields_data shortArticle240 = []
    ∧ word_count_check shortArticle240 301 = WordCheck.acceptedOk 240
    ∧ (240 : ℚ) < 8 / 10 * 301 := by
  refine ⟨by decide, by decide, by norm_num⟩

/-- C1 (amended): an article is rejected as too short exactly when its
realized word count is below the truncated threshold `int(0.8 * w)`
(= `4*w/5` in integer division), every article so rejected does satisfy
`realized < 0.8 * w` over the rationals, and any article with
`realized > 1.2 * w` is accepted and flagged as over-length, never
rejected. -/
theorem word_count_acceptance_amended (d : ArticleData) (w : Nat) :
    ((∃ a, word_count_check d w = WordCheck.tooShort a)
        ↔ actual_word_count d < 4 * w / 5)
    ∧ ((6 / 5 * (w : ℚ) < (actual_word_count d : ℚ)) →
        word_count_check d w = WordCheck.acceptedOver (actual_word_count d))
    ∧ (∀ a, word_count_check d w = WordCheck.tooShort a → (a : ℚ) < 8 / 10 * (w : ℚ)) := by
  refine ⟨⟨?_, ?_⟩, ?_, ?_⟩
  · rintro ⟨a, ha⟩
    unfold word_count_check at ha
    by_cases h : actual_word_count d < 4 * w / 5
    · exact h
    · rw [if_neg h] at ha
      by_cases h2 : 6 * w / 5 < actual_word_count d
      · rw [if_pos h2] at ha
        exact absurd ha (by simp)
      · rw [if_neg h2] at ha
        exact absurd ha (by simp)
  · intro h
    exact ⟨actual_word_count d, by unfold word_count_check; rw [if_pos h]⟩
  · intro hq
    have h5 : 6 * w < 5 * actual_word_count d := by
      have : (6 * w : ℚ) < 5 * actual_word_count d := by linarith
      exact_mod_cast this
    have hmax : 6 * w / 5 < actual_word_count d := by omega
    have hmin : ¬ actual_word_count d < 4 * w / 5 := by omega
    unfold word_count_check
    rw [if_neg hmin, if_pos hmax]
  · intro a ha
    unfold word_count_check at ha
    by_cases h : actual_word_count d < 4 * w / 5
    · rw [if_pos h] at ha
      have haa : actual_word_count d = a := by injection ha
      have h5 : 5 * a < 4 * w := by omega
      have : (5 * a : ℚ) < 4 * w := by exact_mod_cast h5
      linarith
    · rw [if_neg h] at ha
      by_cases h2 : 6 * w / 5 < actual_word_count d
      · rw [if_pos h2] at ha
        exact absurd ha (by simp)
      · rw [if_neg h2] at ha
        exact absurd ha (by simp)

/-- Witness for C1's amended theorem: a 7-word article against a requested
count of 5 exceeds `1.2 * 5 = 6` words, so it is accepted with the
over-length flag. -/
theorem word_count_acceptance_amended_witness :
    word_count_check longArticle7 5 = WordCheck.acceptedOver (actual_word_count longArticle7) :=
  (word_count_acceptance_amended longArticle7 5).2.1 (by
    have h7 : actual_word_count longArticle7 = 7 := rfl
    rw [h7]
    norm_num)

/- ## Extraction-order theorems (C2) -/

/-- C2 (counterexample): on the response `[{"x":1}]` the whole text parses
as a JSON array, so the claimed order (whole text first) returns that
array; `clean_json_response` in `writer.py` instead tries the greedy brace
substring `{"x":1}` first and returns the embedded object — the two
strategies are applied in the opposite of the claimed order. -/
theorem extraction_order_counterexample :
    clean_json_response "[\x7b\"x\":1\x7d]" = some (Json.obj [("x", Json.jnum "1")])
    ∧ spec_order_extract "[\x7b\"x\":1\x7d]"
        = some (Json.arr [Json.obj [("x", Json.jnum "1")]])
    ∧ Json.obj [("x", Json.jnum "1")] ≠ Json.arr [Json.obj [("x", Json.jnum "1")]] :=
  ⟨rfl, rfl, fun h => Json.noConfusion h⟩

/-- C2 (amended): `writer.py`'s `clean_json_response` applies the two
strategies in the reverse of the claimed order — (1) parse the greedy
first-`\x7b`-to-last-`\x7d` substring, (2) only on failure parse the whole
response — and signals a parse failure (returns `None`) only when the whole
text also fails to parse; the keyword extractor in `keyword_generator.py`
does follow the claimed order (whole stripped text first, brace substring
second, raised parse failure third). -/
theorem extraction_strategy_amended (text : String) :
    (∀ sub j, extractBraces text = some sub → pyJsonLoads sub = some j →
        clean_json_response text = some j)
    ∧ (∀ sub, extractBraces text = some sub → pyJsonLoads sub = none →
        clean_json_response text = pyJsonLoads text)
    ∧ (extractBraces text = none → clean_json_response text = pyJsonLoads text)
    ∧ (∀ j, pyJsonLoads (pyStrip text) = some j → kg_extract text = Except.ok j)
    ∧ (pyJsonLoads (pyStrip text) = none → extractBraces (pyStrip text) = none →
        kg_extract text = Except.error KgFailure.wrappedValueError)
    ∧ (∀ sub, pyJsonLoads (pyStrip text) = none → extractBraces (pyStrip text) = some sub →
        pyJsonLoads sub = none → kg_extract text = Except.error KgFailure.wrappedDecodeError) := by
  refine ⟨?_, ?_, ?_, ?_, ?_, ?_⟩
  · intro sub j h1 h2
    unfold clean_json_response
    simp only [h1, h2]
  · intro sub h1 h2
    unfold clean_json_response
    simp only [h1, h2]
  · intro h1
    unfold clean_json_response
    simp only [h1]
  · intro j h1
    unfold kg_extract
    simp only [h1]
  · intro h1 h2
    unfold kg_extract
    simp only [h1, h2]
  · intro sub h1 h2 h3
    unfold kg_extract
    simp only [h1, h2, h3]

/-- Witness for C2's amended theorem: a response with prose around a JSON
object is extracted through the brace-substring strategy. -/
theorem extraction_strategy_amended_witness :
    clean_json_response "noise \x7b\"a\":true\x7d tail" = some (Json.obj [("a", Json.bool true)]) :=
  (extraction_strategy_amended "noise \x7b\"a\":true\x7d tail").1
    "\x7b\"a\":true\x7d" (Json.obj [("a", Json.bool true)]) rfl rfl

/- ## Required-field reporting (C3) -/

/-- C3 (counterexample): the response `{}` parses structurally to the empty
object, which is missing both required fields; yet the writer pipeline's
`if data:` truthiness guard classifies it as a parse failure, so the
returned failure does not name the missing fields. -/
theorem missing_fields_report_counterexample :
    writer_handle_response "\x7b\x7d" = PyResult.retNone msg_parse_failed
    ∧ msg_parse_failed ≠ missing_msg ["article_title", "article_sections"] := by
  constructor
  · rfl
  · decide

/-- C3 (amended): the missing-field list is exactly the set of absent
fields among `article_title` and `article_sections` (in that order), a
payload with both fields passes the check, and both pipelines report that
list in the failure — except that the writer free-text path first reroutes
any falsy parse result (such as the empty object) to the parse-failure
message. -/
theorem required_field_check_amended (fields : List (String × Json)) :
    (missing_fields_json fields = [] ↔
        hasKeyF fields "article_title" = true ∧ hasKeyF fields "article_sections" = true)
    ∧ (∀ f, f ∈ missing_fields_json fields ↔
        ((f = "article_title" ∨ f = "article_sections") ∧ hasKeyF fields f = false))
    ∧ (pyTruthy (Json.obj fields) = true →
        writer_process_data (Json.obj fields) =
          (if (missing_fields_json fields).isEmpty then PyResult.ok (Json.obj fields)
           else PyResult.retNone (missing_msg (missing_fields_json fields))))
    ∧ (∀ w, ¬ (missing_fields_json fields).isEmpty = true →
        tools_validate fields w = PyResult.retNone (missing_msg (missing_fields_json fields)))
    ∧ writer_process_data (Json.obj []) = PyResult.retNone msg_parse_failed := by
  refine ⟨?_, ?_, ?_, ?_, rfl⟩
  · by_cases h1 : hasKeyF fields "article_title" = true <;>
      by_cases h2 : hasKeyF fields "article_sections" = true <;>
        simp [missing_fields_json, required_fields, List.filter, h1, h2]
  · intro f
    simp only [missing_fields_json, required_fields, List.mem_filter, Bool.not_eq_true']
    simp [List.mem_cons]
  · intro ht
    unfold writer_process_data
    rw [if_pos ht]
    rfl
  · intro w hne
    unfold tools_validate
    rw [if_neg hne]

/-- Witness for C3's amended theorem: a payload carrying only a `faq` field
is reported with exactly the two missing required fields. -/
theorem required_field_check_amended_witness :
    writer_process_data (Json.obj [("faq", Json.arr [])]) =
      PyResult.retNone (missing_msg ["article_title", "article_sections"]) := by
  have h := (required_field_check_amended [("faq", Json.arr [])]).2.2.1 (by decide)
  rw [h]
  rfl

/- ## Error-propagation theorems (C4, C5) -/

/-- Helper: the writer response handler never raises: every extraction or
validation failure becomes a returned `None` with a printed cause. -/
theorem writer_handle_response_never_raises (text : String) :
    (writer_handle_response text).isRaised = false := by
  unfold writer_handle_response
  cases h : clean_json_response text with
  | none => rfl
  | some data =>
    show (writer_process_data data).isRaised = false
    unfold writer_process_data
    by_cases ht : pyTruthy data = true
    · rw [if_pos ht]
      cases hm : missing_required data with
      | error u => rfl
      | ok missing =>
        by_cases he : missing.isEmpty <;> simp [he, PyResult.isRaised]
    · rw [if_neg ht]
      rfl

/-- Helper: the tool-call validation never raises. -/
theorem tools_validate_never_raises (fields : List (String × Json)) (w : Nat) :
    (tools_validate fields w).isRaised = false := by
  by_cases hm : (missing_fields_json fields).isEmpty = true
  · cases hj : jsonToArticle fields with
    | error u => simp [tools_validate, hm, hj, PyResult.isRaised]
    | ok d =>
      cases hwc : word_count_check d w <;>
        simp [tools_validate, hm, hj, hwc, PyResult.isRaised]
  · simp [tools_validate, hm, PyResult.isRaised]

/-- Helper: with a credential present, `generate_article_with_tools` never
raises. -/
theorem tools_generate_article_never_raises (key : String) (hk : ¬ key = "")
    (tapi : ToolApiOutcome) (w : Nat) :
    ((tools_generate_article (some key) tapi w).1).isRaised = false := by
  unfold tools_generate_article
  rw [if_neg (by simpa using hk)]
  split
  · rfl
  · rfl
  · split
    · split
      · rfl
      · exact tools_validate_never_raises _ w
      · split
        · rfl
        · split <;> rfl
    · rfl

/-- C4 (counterexample): with a credential present, a transport failure in
the keyword pipeline is re-raised as a wrapped exception — it propagates to
the caller instead of being returned as an explicit no-result signal. -/
theorem error_propagation_counterexample :
    (kg_generate_keywords (some "sk-test") (ApiOutcome.authError "AuthenticationError")).1
      = PyResult.raised "Error generating keywords: AuthenticationError"
    ∧ ((kg_generate_keywords (some "sk-test")
        (ApiOutcome.authError "AuthenticationError")).1).isRaised = true :=
  ⟨rfl, rfl⟩

/-- C4 (amended): the article pipelines recover transport, empty-response,
parse and validation failures into a returned `None` plus a printed cause —
but only once the credential is present; a missing credential raises from
every pipeline function, and the keyword pipelines re-raise all runtime
errors wrapped in `Exception("Error generating keywords: ...")` instead of
returning a no-result. -/
theorem error_propagation_amended (key : String) (api : ApiOutcome)
    (tapi : ToolApiOutcome) (w : Nat) (m : String) (hkey : ¬ key = "") :
    (writer_generate_article (some key) api).1.isRaised = false
    ∧ (tools_generate_article (some key) tapi w).1.isRaised = false
    ∧ (kg_generate_keywords (some key) (ApiOutcome.otherError m)).1
        = PyResult.raised ("Error generating keywords: " ++ m)
    ∧ (tools_generate_keywords (some key) (ToolApiOutcome.exn m)).1
        = PyResult.raised ("Error generating keywords: " ++ m)
    ∧ (writer_generate_article none api).1.isRaised = true := by
  refine ⟨?_, tools_generate_article_never_raises key hkey tapi w, ?_, ?_, ?_⟩
  · unfold writer_generate_article
    rw [if_neg (by simpa using hkey)]
    cases api with
    | authError m2 => rfl
    | rateLimitError m2 => rfl
    | apiError m2 => rfl
    | otherError m2 => rfl
    | content text => exact writer_handle_response_never_raises text
  · unfold kg_generate_keywords
    rw [if_neg (by simpa using hkey)]
  · unfold tools_generate_keywords
    rw [if_neg (by simpa using hkey)]
  · rfl

/-- Witness for C4's amended theorem at a concrete credential and error. -/
theorem error_propagation_amended_witness :
    (kg_generate_keywords (some "sk-live") (ApiOutcome.otherError "boom")).1
      = PyResult.raised ("Error generating keywords: " ++ "boom") :=
  (error_propagation_amended "sk-live" (ApiOutcome.content "") ToolApiOutcome.noToolCalls
    0 "boom" (by decide)).2.2.1

/-- C5: with the credential absent, each of the four pipeline functions
fails immediately with its configuration failure (a raised `ValueError`)
and issues zero network requests, for every possible request outcome. -/
theorem missing_credential_fails_before_network (api : ApiOutcome)
    (tapi : ToolApiOutcome) (w : Nat) :
    writer_generate_article none api
      = (PyResult.raised "OpenAI API key not found. Please set OPENAI_API_KEY in your .env file.", 0)
    ∧ tools_generate_article none tapi w
      = (PyResult.raised "OpenAI API key not found. Please set OPENAI_API_KEY in your .env file.", 0)
    ∧ kg_generate_keywords none api
      = (PyResult.raised "OPENAI_API_KEY not found in environment variables", 0)
    ∧ tools_generate_keywords none tapi
      = (PyResult.raised "OPENAI_API_KEY not found in environment variables", 0) :=
  ⟨rfl, rfl, rfl, rfl⟩

/- ## Prompt-builder determinism (C9) -/

/-- C9: both prompt builders are pure functions of their inputs — two calls
with identical arguments yield character-for-character identical prompt
text (their embedding as Lean functions carries the absence of side
effects). -/
theorem prompt_builders_pure_deterministic :
    (∀ (k t : String) (w : Nat) (a : String) (kl : Option (List String))
        (k2 t2 : String) (w2 : Nat) (a2 : String) (kl2 : Option (List String)),
        k = k2 → t = t2 → w = w2 → a = a2 → kl = kl2 →
        build_prompt k t w a kl = build_prompt k2 t2 w2 a2 kl2)
    ∧ (∀ (topic : String) (c : Nat) (kts : List String)
        (topic2 : String) (c2 : Nat) (kts2 : List String),
        topic = topic2 → c = c2 → kts = kts2 →
        build_keyword_prompt topic c kts = build_keyword_prompt topic2 c2 kts2) := by
  constructor
  · intro k t w a kl k2 t2 w2 a2 kl2 h1 h2 h3 h4 h5
    rw [h1, h2, h3, h4, h5]
  · intro topic c kts topic2 c2 kts2 h1 h2 h3
    rw [h1, h2, h3]

/-- Witness for C9 at concrete arguments. -/
theorem prompt_builders_pure_deterministic_witness :
    build_prompt "espresso" "informal" 800 "guide" none
      = build_prompt "espresso" "informal" 800 "guide" none :=
  prompt_builders_pure_deterministic.1 "espresso" "informal" 800 "guide" none
    "espresso" "informal" 800 "guide" none rfl rfl rfl rfl rfl

/- ## Keyword flattening (C10) -/

/-- Helper: the `flat.extend(kw_list)` loop concatenates the per-type lists
in order. -/
theorem foldl_append_eq_join (l : List (String × List String)) (acc : List String) :
    l.foldl (fun flat p => flat ++ p.2) acc = acc ++ (l.map Prod.snd).flatten := by
  induction l generalizing acc with
  | nil => simp
  | cons p l ih =>
    show List.foldl _ (acc ++ p.2) l = _
    rw [ih, List.map_cons, List.flatten_cons, List.append_assoc]

/-- C10: `get_flat_keywords_list` always returns a record with the given
topic; an absent generation result yields the empty keyword list, and
otherwise the keyword list is the concatenation of all per-type lists in
source order. -/
theorem get_flat_keywords_list_total (topic : String) (gen : Option KeywordsPayload) :
    (get_flat_keywords_list topic gen).1 = topic
    ∧ (gen = none → (get_flat_keywords_list topic gen).2 = [])
    ∧ (∀ d, gen = some d →
        (get_flat_keywords_list topic gen).2 = ((d.keywords.getD []).map Prod.snd).flatten) := by
  refine ⟨?_, ?_, ?_⟩
  · cases gen <;> rfl
  · intro h
    subst h
    rfl
  · intro d h
    subst h
    show (d.keywords.getD []).foldl (fun flat p => flat ++ p.2) [] = _
    rw [foldl_append_eq_join]
    simp

/-- Witness for C10 at a concrete payload: the two per-type lists are
concatenated in order. -/
theorem get_flat_keywords_list_total_witness :
    (get_flat_keywords_list "coffee" (some exampleKeywordsPayload)).2 = ["a", "b", "c"] := by
  have h := (get_flat_keywords_list_total "coffee" (some exampleKeywordsPayload)).2.2
    exampleKeywordsPayload rfl
  rw [h]
  rfl
